import Mathlib

/-
  Verification development for the caching layer of plugin.video.netflix:
  a shallow embedding of `resources/lib/common/cache_utils.py` (memoization
  decorator and identifier derivation) and `resources/lib/common/cache.py`
  (cache facade, dual-mode dispatch, serialization codec), together with a
  spec-modelled cache store (the cache-management module itself is not part
  of the sources at hand; only its facade is).
-/

set_option autoImplicit false

namespace NFCache

/-! ## Python value model

Arguments, keyword arguments and identifiers handled by the caching layer are
Python scalars: `None`, booleans, integers and strings.  Marshalled call
parameters (the `call_args` dicts of `cache.py`) additionally carry bucket
dicts, bucket lists and binary payloads; those get their own type `ParamVal`
below. -/

/-- A cache bucket, mirroring the bucket dicts of `cache_utils.py`
(e.g. `CACHE_COMMON = {'name': ..., 'is_persistent': ..., 'default_ttl': ...}`).
The `default_ttl` field holds the value of the global the source reads
(`g.CACHE_TTL` or `g.CACHE_METADATA_TTL`). -/
structure Bucket where
  name : String
  is_persistent : Bool
  default_ttl : Nat
  deriving DecidableEq, Repr

/-- Python scalar values that can appear as function arguments / keyword
argument values in calls to a `cache_output`-wrapped function. -/
inductive PyVal where
  | vNone
  | vBool (b : Bool)
  | vInt (n : Int)
  | vStr (s : String)
  deriving DecidableEq, Repr

/-- Python truthiness (`bool(v)`) for the scalar values. -/
def pyTruthy : PyVal → Bool
  | .vNone => false
  | .vBool b => b
  | .vInt n => n != 0
  | .vStr s => s != ""

/-- Python `str(v)` for the scalar values (`str(None) = "None"`, etc.). -/
def pyStr : PyVal → String
  | .vNone => "None"
  | .vBool b => if b then "True" else "False"
  | .vInt n => toString n
  | .vStr s => s

/-- Truthiness of an optional-string decorator parameter
(Python default `None`; an empty string is also falsy). -/
def pyTruthyOptStr : Option String → Bool
  | none => false
  | some s => s != ""

/-- Errors that the embedded operations can signal.  `cacheMiss` embeds the
`CacheMiss` exception of `resources/lib/api/exceptions.py`; `indexError` and
`typeError` embed the built-in Python exceptions; the serialization errors
embed pickle failures. -/
inductive PyErr where
  | cacheMiss
  | indexError
  | typeError
  | serializationError
  | corruptPayload
  deriving DecidableEq, Repr

/-- `kwargs.get(name)`: value of the keyword argument, `None` when absent. -/
def kwLookup : List (String × PyVal) → String → PyVal
  | [], _ => .vNone
  | (k, v) :: rest, n => if k = n then v else kwLookup rest n

/-- Python list indexing `args[i]`: raises `IndexError` when out of bounds. -/
def pyIndex (args : List PyVal) (i : Nat) : Except PyErr PyVal :=
  if h : i < args.length then .ok args[i] else .error .indexError

/-- Python `+` on scalar values: string concatenation on strings, addition on
integers, `TypeError` on mixed operands. -/
def pyAdd : PyVal → PyVal → Except PyErr PyVal
  | .vStr a, .vStr b => .ok (.vStr (a ++ b))
  | .vInt a, .vInt b => .ok (.vInt (a + b))
  | _, _ => .error .typeError

/-! ## cache_utils.py -/

/-- `CACHE_MYLIST_TTL_MAX = 7200` from `cache_utils.py`. -/
def CACHE_MYLIST_TTL_MAX : Nat := 7200

/-- `generate_identifier(partial_identifier)` from `cache_utils.py`:
`g.LOCAL_DB.get_active_profile_guid() + '_' + partial_identifier`; the active
profile guid is passed explicitly. -/
def generate_identifier (guid partial_identifier : String) : String :=
  guid ++ "_" ++ partial_identifier

/-- `_get_identifier(...)` from `cache_utils.py`.  Returns the pair
`(arg_value, generate_identifier(str(identifier)))` like the source; the
active profile guid is the last parameter.  Python exceptions (`IndexError`
from the positional access, `TypeError` from `+` on non-strings) are modelled
by the `Except` layer. -/
def get_identifier (fixed_identifier : Option String)
    (identify_from_kwarg_name : String)
    (identify_append_from_kwarg_name : Option String)
    (identify_fallback_arg_index : Nat)
    (args : List PyVal) (kwargs : List (String × PyVal)) (guid : String) :
    Except PyErr (Option PyVal × String) :=
  if pyTruthyOptStr fixed_identifier then
    .ok (none, generate_identifier guid (fixed_identifier.getD ""))
  else
    let kw0 := kwLookup kwargs identify_from_kwarg_name
    let step1 : Except PyErr (Option PyVal × PyVal) :=
      if pyTruthy kw0 = false ∧ args ≠ [] then
        match pyIndex args identify_fallback_arg_index with
        | .ok av => .ok (some av, av)
        | .error e => .error e
      else
        .ok (none, kw0)
    match step1 with
    | .error e => .error e
    | .ok (arg_value, ident1) =>
      let appendKw := kwLookup kwargs (identify_append_from_kwarg_name.getD "")
      let step2 : Except PyErr PyVal :=
        if pyTruthy ident1 = true ∧ pyTruthyOptStr identify_append_from_kwarg_name = true ∧
            pyTruthy appendKw = true then
          match pyAdd (.vStr "_") appendKw with
          | .ok suffixv => pyAdd ident1 suffixv
          | .error e => .error e
        else
          .ok ident1
      match step2 with
      | .error e => .error e
      | .ok ident2 => .ok (arg_value, generate_identifier guid (pyStr ident2))

/-- Python `ttl or ttl_override` (the `ttl=ttl or ttl_override` argument of
the `g.CACHE.add` call in the wrapper): `ttl` when truthy (non-`None` and
non-zero), else `ttl_override`. -/
def pyTtlOr (ttl ttl_override : Option Nat) : Option Nat :=
  match ttl with
  | some t => if t = 0 then ttl_override else some t
  | none => ttl_override

/-- The `wrapper` closure of the `cache_output` decorator in `cache_utils.py`,
for one call.  The facade operations it invokes (`g.CACHE.get`, `g.CACHE.add`)
are passed as functions over an abstract cache state `σ`; `func` is the
wrapped function (pure, evaluated on the call's `args`/`kwargs`).  The result
is `(returned value or raised error, cache state after the call, number of
times func was invoked during this call)`. -/
def cache_output_wrapper {α σ : Type}
    (bucket : Bucket) (fixed_identifier : Option String)
    (identify_from_kwarg_name : String)
    (identify_append_from_kwarg_name : Option String)
    (identify_fallback_arg_index : Nat) (ttl : Option Nat)
    (cacheTtlGlobal : Nat) (guid : String)
    (cacheGet : Bucket → String → σ → Except PyErr α)
    (cacheAdd : Bucket → String → α → Option Nat → σ → σ)
    (func : List PyVal → List (String × PyVal) → α)
    (args : List PyVal) (kwargs : List (String × PyVal)) (st : σ) :
    Except PyErr α × σ × Nat :=
  match get_identifier fixed_identifier identify_from_kwarg_name
      identify_append_from_kwarg_name identify_fallback_arg_index args kwargs guid with
  | .error e => (.error e, st, 0)
  | .ok (arg_value, identifier) =>
    let ttl_override : Option Nat :=
      if ttl = none ∧ arg_value = some (PyVal.vStr "mylist") then
        some (min cacheTtlGlobal CACHE_MYLIST_TTL_MAX)
      else none
    if identifier = "" then
      -- "Do not cache if identifier couldn't be determined"
      (.ok (func args kwargs), st, 1)
    else
      match cacheGet bucket identifier st with
      | .ok v => (.ok v, st, 0)
      | .error PyErr.cacheMiss =>
        let output := func args kwargs
        (.ok output, cacheAdd bucket identifier output (pyTtlOr ttl ttl_override) st, 1)
      | .error e => (.error e, st, 0)

/-! ## cache.py : facade and dual-mode dispatch -/

/-- Values appearing in the marshalled `call_args` dicts of `cache.py`. -/
inductive ParamVal where
  | pNone
  | pBool (b : Bool)
  | pInt (n : Int)
  | pStr (s : String)
  | pBytes (bs : List Nat)
  | pBucket (b : Bucket)
  | pBuckets (bs : List Bucket)
  deriving DecidableEq, Repr

/-- Optional ttl/expires parameter marshalled into a `call_args` dict. -/
def pOptNat : Option Nat → ParamVal
  | none => .pNone
  | some n => .pInt n

/-- Optional bucket-list parameter marshalled into a `call_args` dict. -/
def pOptBuckets : Option (List Bucket) → ParamVal
  | none => .pNone
  | some bs => .pBuckets bs

/-- The binary payload as assigned into `params['data']` by `_make_call`
(`None` stays `None`). -/
def dataToParam : Option (List Nat) → ParamVal
  | none => .pNone
  | some bs => .pBytes bs

/-- `'data' in params`. -/
def hasKey (params : List (String × ParamVal)) (k : String) : Bool :=
  params.any (fun p => p.1 == k)

/-- `params['data'] = data`: replace the value at an existing key. -/
def setKey : List (String × ParamVal) → String → ParamVal → List (String × ParamVal)
  | [], _, _ => []
  | (k, v) :: rest, key, nv =>
    if k = key then (key, nv) :: rest else (k, v) :: setKey rest key nv

/-- `_make_call(callname, params, data)` from `cache.py`.  `isService` embeds
`g.IS_SERVICE`; `mgmt` embeds `getattr(g.CACHE_MANAGEMENT, callname)(**params)`
(the in-process cache management, abstract here); `make_http_call_cache`
embeds the inter-process HTTP cache channel. -/
def make_call (isService : Bool)
    (mgmt : String → List (String × ParamVal) → Except PyErr ParamVal)
    (make_http_call_cache :
      String → List (String × ParamVal) → Option (List Nat) → Except PyErr ParamVal)
    (callname : String) (params : List (String × ParamVal))
    (data : Option (List Nat)) : Except PyErr ParamVal :=
  if isService then
    mgmt callname
      (if hasKey params "data" then setKey params "data" (dataToParam data) else params)
  else
    make_http_call_cache callname params data

/-- `Cache.get(bucket, identifier)` from `cache.py`: build `call_args` with
`str(identifier)`, dispatch `'get'`, then `_deserialize_data` the returned
payload (the deserializer is abstract at this layer). -/
def Cache_get {α : Type} (isService : Bool)
    (mgmt : String → List (String × ParamVal) → Except PyErr ParamVal)
    (make_http_call_cache :
      String → List (String × ParamVal) → Option (List Nat) → Except PyErr ParamVal)
    (deserialize : ParamVal → Except PyErr α)
    (bucket : Bucket) (identifier : PyVal) : Except PyErr α :=
  match make_call isService mgmt make_http_call_cache "get"
      [("bucket", .pBucket bucket), ("identifier", .pStr (pyStr identifier))] none with
  | .ok data => deserialize data
  | .error e => .error e

/-- `Cache.add(bucket, identifier, data, ttl, expires)` from `cache.py`: the
envelope's `'data'` field is `None`, the serialized payload travels as the
separate third argument of `_make_call`. -/
def Cache_add {α : Type} (isService : Bool)
    (mgmt : String → List (String × ParamVal) → Except PyErr ParamVal)
    (make_http_call_cache :
      String → List (String × ParamVal) → Option (List Nat) → Except PyErr ParamVal)
    (serialize : α → List Nat)
    (bucket : Bucket) (identifier : PyVal) (data : α)
    (ttl : Option Nat) (expires : Option Nat) : Except PyErr Unit :=
  match make_call isService mgmt make_http_call_cache "add"
      [("bucket", .pBucket bucket), ("identifier", .pStr (pyStr identifier)),
       ("data", .pNone), ("ttl", pOptNat ttl), ("expires", pOptNat expires)]
      (some (serialize data)) with
  | .ok _ => .ok ()
  | .error e => .error e

/-- `Cache.delete(bucket, identifier)` from `cache.py`. -/
def Cache_delete (isService : Bool)
    (mgmt : String → List (String × ParamVal) → Except PyErr ParamVal)
    (make_http_call_cache :
      String → List (String × ParamVal) → Option (List Nat) → Except PyErr ParamVal)
    (bucket : Bucket) (identifier : PyVal) : Except PyErr Unit :=
  match make_call isService mgmt make_http_call_cache "delete"
      [("bucket", .pBucket bucket), ("identifier", .pStr (pyStr identifier))] none with
  | .ok _ => .ok ()
  | .error e => .error e

/-- `Cache.clear(buckets, clear_database)` from `cache.py`. -/
def Cache_clear (isService : Bool)
    (mgmt : String → List (String × ParamVal) → Except PyErr ParamVal)
    (make_http_call_cache :
      String → List (String × ParamVal) → Option (List Nat) → Except PyErr ParamVal)
    (buckets : Option (List Bucket)) (clear_database : Bool) : Except PyErr Unit :=
  match make_call isService mgmt make_http_call_cache "clear"
      [("buckets", pOptBuckets buckets), ("clear_database", .pBool clear_database)]
      none with
  | .ok _ => .ok ()
  | .error e => .error e

/-! ## Serialization codec (`_serialize_data` / `_deserialize_data`)

The source pickles the value (`pickle.dumps` / `pickle.loads` from the Python
standard library, abstract here) and, on the Python-2 path only, additionally
wraps the pickled bytes in standard base64.  The base64 pair
(`base64.standard_b64encode` / `standard_b64decode`) is embedded concretely
below, over byte lists. -/

/-- The standard base64 alphabet as byte values: index `k < 64` to the ASCII
code of the k-th alphabet character (`A-Z`, `a-z`, `0-9`, `+`, `/`). -/
def b64tbl (k : Nat) : Nat :=
  if k < 26 then 65 + k
  else if k < 52 then 71 + k
  else if k < 62 then k - 4
  else if k = 62 then 43
  else 47

/-- Inverse of the base64 alphabet: ASCII code back to the 6-bit index. -/
def b64dec (c : Nat) : Nat :=
  if 65 ≤ c ∧ c ≤ 90 then c - 65
  else if 97 ≤ c ∧ c ≤ 122 then c - 71
  else if 48 ≤ c ∧ c ≤ 57 then c + 4
  else if c = 43 then 62
  else 63

/-- `base64.standard_b64encode` over byte lists: each 3-byte group becomes 4
alphabet bytes; a trailing 1- or 2-byte group is padded with `'='` (61). -/
def standard_b64encode : List Nat → List Nat
  | [] => []
  | [a] => [b64tbl (a / 4), b64tbl (a % 4 * 16), 61, 61]
  | [a, b] => [b64tbl (a / 4), b64tbl (a % 4 * 16 + b / 16), b64tbl (b % 16 * 4), 61]
  | a :: b :: c :: rest =>
    b64tbl (a / 4) :: b64tbl (a % 4 * 16 + b / 16) :: b64tbl (b % 16 * 4 + c / 64)
      :: b64tbl (c % 64) :: standard_b64encode rest

/-- `base64.standard_b64decode` over byte lists: each 4-byte group yields 3
bytes, or fewer on a `'='`-padded (61) final group. -/
def standard_b64decode : List Nat → List Nat
  | c1 :: c2 :: c3 :: c4 :: rest =>
    if c3 = 61 then [b64dec c1 * 4 + b64dec c2 / 16]
    else if c4 = 61 then
      [b64dec c1 * 4 + b64dec c2 / 16, b64dec c2 % 16 * 16 + b64dec c3 / 4]
    else
      (b64dec c1 * 4 + b64dec c2 / 16) :: (b64dec c2 % 16 * 16 + b64dec c3 / 4) ::
        (b64dec c3 % 4 * 64 + b64dec c4) :: standard_b64decode rest
  | _ => []

/-- `_serialize_data(value)` from `cache.py`: on Python 2
(`g.PY_IS_VER2`) pickle then base64-encode, on Python 3 raw pickle bytes.
`pickle_dumps` abstracts `pickle.dumps(value, protocol=HIGHEST_PROTOCOL)`. -/
def serialize_data {α : Type} (py_is_ver2 : Bool) (pickle_dumps : α → List Nat)
    (value : α) : List Nat :=
  if py_is_ver2 then standard_b64encode (pickle_dumps value) else pickle_dumps value

/-- `_deserialize_data(value)` from `cache.py`: on Python 2 base64-decode then
unpickle, on Python 3 raw unpickle.  `pickle_loads` abstracts
`pickle.loads`. -/
def deserialize_data {α : Type} (py_is_ver2 : Bool) (pickle_loads : List Nat → α)
    (value : List Nat) : α :=
  if py_is_ver2 then pickle_loads (standard_b64decode value) else pickle_loads value

/-! ## Spec-modelled cache store

The cache-management module (`cache_management.py`) is not among the sources
at hand; only its facade is.  The store below is modelled from the spec. -/

/-- Modelled from the spec: the in-memory key-value store of the cache
management (spec section 4.3 Cache Store), keyed by bucket name and
identifier; each entry records the stored value and the `ttl` argument the
write supplied.  Values are stored as values rather than serialized payloads:
per spec section 4.2 the codec is a lossless round-trip (verified separately
on the codec itself), so `add` followed by `get` observes the value added. -/
def Store (α : Type) : Type := List ((String × String) × (α × Option Nat))

/-- Lookup of a (bucket name, identifier) key in the store; first match wins,
so prepending a fresh entry realizes the spec's last-write-wins update. -/
def storeFind {α : Type} (k : String × String) : Store α → Option (α × Option Nat)
  | [] => none
  | e :: rest => if e.1 = k then some e.2 else storeFind k rest

/-- Modelled from the spec: service-process composition of `Cache.get` with
the cache-management store — returns the stored value or raises `CacheMiss`
when absent (spec sections 4.3/4.4). -/
def cacheF_get {α : Type} (bucket : Bucket) (identifier : PyVal) (st : Store α) :
    Except PyErr α :=
  match storeFind (bucket.name, pyStr identifier) st with
  | some (v, _) => .ok v
  | none => .error .cacheMiss

/-- Modelled from the spec: service-process composition of `Cache.add` with
the cache-management store — overwrites any prior entry at the same
bucket/identifier key (last-write-wins), recording the supplied `ttl`. -/
def cacheF_add {α : Type} (bucket : Bucket) (identifier : PyVal) (v : α)
    (ttl : Option Nat) (st : Store α) : Store α :=
  ((bucket.name, pyStr identifier), (v, ttl)) :: st

/-- Modelled from the spec: service-process composition of `Cache.delete`
with the cache-management store — removes the entry at the key, a no-op when
absent. -/
def cacheF_delete {α : Type} (bucket : Bucket) (identifier : PyVal) (st : Store α) :
    Store α :=
  st.filter (fun e => decide (e.1 ≠ (bucket.name, pyStr identifier)))

/-- One call to a `cache_output`-wrapped function with the decorator's default
derivation options (`fixed_identifier=None`, `identify_from_kwarg_name=
'videoid'`, `identify_append_from_kwarg_name=None`,
`identify_fallback_arg_index=0`), wired to the store-backed facade. -/
def memo_call {α : Type} (bucket : Bucket) (ttl : Option Nat) (cacheTtlGlobal : Nat)
    (guid : String) (func : List PyVal → List (String × PyVal) → α)
    (args : List PyVal) (kwargs : List (String × PyVal)) (st : Store α) :
    Except PyErr α × Store α × Nat :=
  cache_output_wrapper bucket none "videoid" none 0 ttl cacheTtlGlobal guid
    (fun b i s => cacheF_get b (.vStr i) s)
    (fun b i v t s => cacheF_add b (.vStr i) v t s)
    func args kwargs st

/-! ## Helper lemmas -/

lemma b64dec_tbl : ∀ k < 64, b64dec (b64tbl k) = k := by decide

lemma b64tbl_ne61 : ∀ k < 64, b64tbl k ≠ 61 := by decide

/-- Base64 round trip on well-formed byte lists (every element below 256). -/
theorem b64_roundtrip (bs : List Nat) (h : ∀ x ∈ bs, x < 256) :
    standard_b64decode (standard_b64encode bs) = bs := by
  induction bs using standard_b64encode.induct with
  | case1 => rfl
  | case2 a =>
    have ha : a < 256 := h a (by simp)
    have h1 : a / 4 < 64 := by omega
    have h2 : a % 4 * 16 < 64 := by omega
    rw [standard_b64encode, standard_b64decode]
    rw [if_pos rfl, b64dec_tbl _ h1, b64dec_tbl _ h2]
    congr 1
    omega
  | case3 a b =>
    have ha : a < 256 := h a (by simp)
    have hb : b < 256 := h b (by simp)
    have h1 : a / 4 < 64 := by omega
    have h2 : a % 4 * 16 + b / 16 < 64 := by omega
    have h3 : b % 16 * 4 < 64 := by omega
    rw [standard_b64encode, standard_b64decode]
    rw [if_neg (b64tbl_ne61 _ h3), if_pos rfl]
    rw [b64dec_tbl _ h1, b64dec_tbl _ h2, b64dec_tbl _ h3]
    congr 1
    · omega
    congr 1
    omega
  | case4 a b c rest ih =>
    have ha : a < 256 := h a (by simp)
    have hb : b < 256 := h b (by simp)
    have hc : c < 256 := h c (by simp)
    have h1 : a / 4 < 64 := by omega
    have h2 : a % 4 * 16 + b / 16 < 64 := by omega
    have h3 : b % 16 * 4 + c / 64 < 64 := by omega
    have h4 : c % 64 < 64 := by omega
    rw [standard_b64encode, standard_b64decode]
    rw [if_neg (b64tbl_ne61 _ h3), if_neg (b64tbl_ne61 _ h4)]
    rw [b64dec_tbl _ h1, b64dec_tbl _ h2, b64dec_tbl _ h3, b64dec_tbl _ h4]
    rw [ih (fun x hx => h x (by simp [hx]))]
    congr 1
    · omega
    congr 1
    · omega
    congr 1
    omega

/-- A generated identifier is never the empty string (it contains the
underscore separator). -/
lemma generate_identifier_ne_empty (g p : String) : generate_identifier g p ≠ "" := by
  intro heq
  have hlen := congrArg String.length heq
  rw [generate_identifier, String.length_append, String.length_append] at hlen
  have h1 : ("_" : String).length = 1 := rfl
  have h0 : ("" : String).length = 0 := rfl
  omega

/-- Generated identifiers with the same guid and distinct partials differ. -/
lemma generate_identifier_inj_right {g p q : String}
    (h : generate_identifier g p = generate_identifier g q) : p = q := by
  have hd := congrArg String.data h
  rw [generate_identifier, generate_identifier, String.data_append, String.data_append,
    String.data_append, String.data_append] at hd
  rw [List.append_assoc, List.append_assoc] at hd
  exact String.ext (List.append_cancel_left (List.append_cancel_left hd))

/-- Generated identifiers with the same partial and distinct guids differ. -/
lemma generate_identifier_inj_left {g1 g2 p : String}
    (h : generate_identifier g1 p = generate_identifier g2 p) : g1 = g2 := by
  have hd := congrArg String.data h
  rw [generate_identifier, generate_identifier, String.data_append, String.data_append,
    String.data_append, String.data_append] at hd
  exact String.ext (List.append_cancel_right (List.append_cancel_right hd))

/-- Fixed-identifier branch of `_get_identifier`: when the configured
`fixed_identifier` is truthy it is used verbatim. -/
lemma get_identifier_fixed_t (fixed : Option String) (hfix : pyTruthyOptStr fixed = true)
    (fromName : String) (appendName : Option String) (idx : Nat) (args : List PyVal)
    (kwargs : List (String × PyVal)) (guid : String) :
    get_identifier fixed fromName appendName idx args kwargs guid
      = .ok (none, generate_identifier guid (fixed.getD "")) := by
  simp [get_identifier, hfix]

/-- Fixed-identifier branch, `some` form. -/
lemma get_identifier_fixed (s : String) (hs : s ≠ "") (fromName : String)
    (appendName : Option String) (idx : Nat) (args : List PyVal)
    (kwargs : List (String × PyVal)) (guid : String) :
    get_identifier (some s) fromName appendName idx args kwargs guid
      = .ok (none, generate_identifier guid s) := by
  simp [get_identifier, pyTruthyOptStr, hs]

/-- Keyword-argument branch of `_get_identifier` (no append configured). -/
lemma get_identifier_kwarg (fixed : Option String) (hfix : pyTruthyOptStr fixed = false)
    (fromName : String) (appendName : Option String)
    (hap : pyTruthyOptStr appendName = false) (idx : Nat) (args : List PyVal)
    (kwargs : List (String × PyVal)) (guid : String)
    (hkw : pyTruthy (kwLookup kwargs fromName) = true) :
    get_identifier fixed fromName appendName idx args kwargs guid
      = .ok (none, generate_identifier guid (pyStr (kwLookup kwargs fromName))) := by
  simp [get_identifier, hfix, hap, hkw]

/-- Positional-fallback branch of `_get_identifier` (no append configured). -/
lemma get_identifier_fallback (fixed : Option String) (hfix : pyTruthyOptStr fixed = false)
    (fromName : String) (appendName : Option String)
    (hap : pyTruthyOptStr appendName = false) (idx : Nat) (args : List PyVal)
    (kwargs : List (String × PyVal)) (guid : String)
    (hkw : pyTruthy (kwLookup kwargs fromName) = false) (hargs : args ≠ [])
    (hidx : idx < args.length) :
    get_identifier fixed fromName appendName idx args kwargs guid
      = .ok (some args[idx], generate_identifier guid (pyStr args[idx])) := by
  simp [get_identifier, hfix, hap, hkw, hargs, pyIndex, hidx]

/-- No-identifier branch of `_get_identifier`: falsy kwarg and empty `args`
leave the raw identifier `None`, which still becomes `guid + '_' + 'None'`. -/
lemma get_identifier_nofallback (fixed : Option String) (hfix : pyTruthyOptStr fixed = false)
    (fromName : String) (appendName : Option String) (idx : Nat) (args : List PyVal)
    (kwargs : List (String × PyVal)) (guid : String)
    (hkw : pyTruthy (kwLookup kwargs fromName) = false) (hargs : args = []) :
    get_identifier fixed fromName appendName idx args kwargs guid
      = .ok (none, generate_identifier guid (pyStr (kwLookup kwargs fromName))) := by
  simp [get_identifier, hfix, hkw, hargs]

/-- Append branch of `_get_identifier`: a truthy secondary kwarg value is
joined to the derived identifier with an underscore. -/
lemma get_identifier_append (fixed : Option String) (hfix : pyTruthyOptStr fixed = false)
    (fromName an : String) (han : an ≠ "") (idx : Nat) (args : List PyVal)
    (kwargs : List (String × PyVal)) (guid : String) (s t : String)
    (hkw : kwLookup kwargs fromName = .vStr s) (hs : s ≠ "")
    (hat : kwLookup kwargs an = .vStr t) (ht : t ≠ "") :
    get_identifier fixed fromName (some an) idx args kwargs guid
      = .ok (none, generate_identifier guid (s ++ "_" ++ t)) := by
  have h1 : pyTruthyOptStr (some an) = true := by simp [pyTruthyOptStr, han]
  simp [get_identifier, hfix, h1, hkw, hat, hs, ht, pyTruthy, pyAdd, pyStr,
    String.append_assoc]

/-- Out-of-bounds positional fallback raises `IndexError`. -/
lemma get_identifier_oob (fixed : Option String) (hfix : pyTruthyOptStr fixed = false)
    (fromName : String) (appendName : Option String) (idx : Nat) (args : List PyVal)
    (kwargs : List (String × PyVal)) (guid : String)
    (hkw : pyTruthy (kwLookup kwargs fromName) = false) (hargs : args ≠ [])
    (hidx : args.length ≤ idx) :
    get_identifier fixed fromName appendName idx args kwargs guid
      = .error .indexError := by
  have h1 : ¬ idx < args.length := by omega
  simp [get_identifier, hfix, hkw, hargs, pyIndex, h1]

/-- Evaluation of one wrapper call once the identifier derivation is known
and the derived identifier is non-empty. -/
lemma wrapper_eval {α σ : Type} (bucket : Bucket) (fixed : Option String)
    (fromName : String) (appendName : Option String) (idx : Nat) (ttl : Option Nat)
    (cacheTtl : Nat) (guid : String)
    (cacheGet : Bucket → String → σ → Except PyErr α)
    (cacheAdd : Bucket → String → α → Option Nat → σ → σ)
    (func : List PyVal → List (String × PyVal) → α)
    (args : List PyVal) (kwargs : List (String × PyVal)) (st : σ)
    (av : Option PyVal) (ident : String)
    (hid : get_identifier fixed fromName appendName idx args kwargs guid
             = .ok (av, ident))
    (hne : ident ≠ "") :
    cache_output_wrapper bucket fixed fromName appendName idx ttl cacheTtl guid
        cacheGet cacheAdd func args kwargs st
      = match cacheGet bucket ident st with
        | .ok v => (.ok v, st, 0)
        | .error PyErr.cacheMiss =>
          (.ok (func args kwargs),
           cacheAdd bucket ident (func args kwargs)
             (pyTtlOr ttl
               (if ttl = none ∧ av = some (PyVal.vStr "mylist") then
                 some (min cacheTtl CACHE_MYLIST_TTL_MAX) else none)) st, 1)
        | .error e => (.error e, st, 0) := by
  simp [cache_output_wrapper, hid, hne]


/-- C3: the partial identifier follows the precedence: a (truthy) configured
`fixed_identifier` is used verbatim with all other derivation inputs ignored;
otherwise the kwarg named `identify_from_kwarg_name` is used, falling back to
`args[identify_fallback_arg_index]` when the kwarg is absent or falsy; a
configured and present (truthy) secondary kwarg value is appended to the
derived identifier joined with an underscore. -/
theorem claim_C3_derivation_precedence (guid fromName : String) (idx : Nat)
    (args : List PyVal) (kwargs : List (String × PyVal)) :
    (∀ (s : String), s ≠ "" → ∀ (appendName : Option String),
       get_identifier (some s) fromName appendName idx args kwargs guid
         = .ok (none, generate_identifier guid s))
  ∧ (∀ (fixed appendName : Option String), pyTruthyOptStr fixed = false →
       pyTruthyOptStr appendName = false →
       pyTruthy (kwLookup kwargs fromName) = true →
       get_identifier fixed fromName appendName idx args kwargs guid
         = .ok (none, generate_identifier guid (pyStr (kwLookup kwargs fromName))))
  ∧ (∀ (fixed appendName : Option String), pyTruthyOptStr fixed = false →
       pyTruthyOptStr appendName = false →
       pyTruthy (kwLookup kwargs fromName) = false → args ≠ [] →
       ∀ (h : idx < args.length),
       get_identifier fixed fromName appendName idx args kwargs guid
         = .ok (some args[idx], generate_identifier guid (pyStr args[idx])))
  ∧ (∀ (fixed : Option String) (an s t : String), pyTruthyOptStr fixed = false →
       an ≠ "" → kwLookup kwargs fromName = .vStr s → s ≠ "" →
       kwLookup kwargs an = .vStr t → t ≠ "" →
       get_identifier fixed fromName (some an) idx args kwargs guid
         = .ok (none, generate_identifier guid (s ++ "_" ++ t))) := by
  refine ⟨?_, ?_, ?_, ?_⟩
  · intro s hs appendName
    exact get_identifier_fixed s hs fromName appendName idx args kwargs guid
  · intro fixed appendName hfix hap hkw
    exact get_identifier_kwarg fixed hfix fromName appendName hap idx args kwargs guid hkw
  · intro fixed appendName hfix hap hkw hargs h
    exact get_identifier_fallback fixed hfix fromName appendName hap idx args kwargs guid
      hkw hargs h
  · intro fixed an s t hfix han hkw hs hat ht
    exact get_identifier_append fixed hfix fromName an han idx args kwargs guid s t
      hkw hs hat ht

/-- Witness for C3 at concrete inputs: fixed, kwarg, positional-fallback and
append derivations. -/
theorem claim_C3_witness :
    get_identifier (some "fixedid") "videoid" (some "extra") 5 []
        [("videoid", PyVal.vStr "kw")] "G" = .ok (none, "G_fixedid")
  ∧ get_identifier none "videoid" none 0 [.vStr "pos"]
        [("videoid", PyVal.vStr "kw")] "G" = .ok (none, "G_kw")
  ∧ get_identifier none "videoid" none 0 [.vStr "pos"] [] "G"
      = .ok (some (PyVal.vStr "pos"), "G_pos")
  ∧ get_identifier none "videoid" (some "extra") 0 []
        [("videoid", PyVal.vStr "a"), ("extra", PyVal.vStr "b")] "G"
      = .ok (none, "G_a_b") := by
  refine ⟨?_, ?_, ?_, ?_⟩
  · exact ((claim_C3_derivation_precedence "G" "videoid" 5 []
      [("videoid", PyVal.vStr "kw")]).1 "fixedid" (by decide) (some "extra")).trans rfl
  · exact ((claim_C3_derivation_precedence "G" "videoid" 0 [.vStr "pos"]
      [("videoid", PyVal.vStr "kw")]).2.1 none none rfl rfl (by decide)).trans rfl
  · exact ((claim_C3_derivation_precedence "G" "videoid" 0 [.vStr "pos"] []).2.2.1
      none none rfl rfl (by decide) (by decide) (by decide)).trans rfl
  · exact ((claim_C3_derivation_precedence "G" "videoid" 0 []
      [("videoid", PyVal.vStr "a"), ("extra", PyVal.vStr "b")]).2.2.2
      none "extra" "a" "b" rfl (by decide) (by decide) (by decide) (by decide)
      (by decide)).trans rfl

/-- C4: every identifier produced by the derivation is the active profile
guid, an underscore, and the partial identifier; and with the same partial
identifier a write under one profile guid is invisible to a read under a
different one. -/
theorem claim_C4_profile_scoping {α : Type} :
    (∀ (fixed : Option String) (fromName : String) (appendName : Option String)
       (idx : Nat) (args : List PyVal) (kwargs : List (String × PyVal))
       (guid : String) (av : Option PyVal) (ident : String),
       get_identifier fixed fromName appendName idx args kwargs guid = .ok (av, ident) →
       ∃ p, ident = generate_identifier guid p)
  ∧ (∀ (bucket : Bucket) (guidA guidB p : String) (v : α) (ttl : Option Nat)
       (st : Store α), guidA ≠ guidB →
       cacheF_get bucket (.vStr (generate_identifier guidB p))
           (cacheF_add bucket (.vStr (generate_identifier guidA p)) v ttl st)
         = cacheF_get bucket (.vStr (generate_identifier guidB p)) st) := by
  constructor
  · intro fixed fromName appendName idx args kwargs guid av ident hid
    simp only [get_identifier] at hid
    split at hid
    · simp only [Except.ok.injEq, Prod.mk.injEq] at hid
      exact ⟨_, hid.2.symm⟩
    · split at hid
      · exact absurd hid (by simp)
      · split at hid
        · exact absurd hid (by simp)
        · simp only [Except.ok.injEq, Prod.mk.injEq] at hid
          exact ⟨_, hid.2.symm⟩
  · intro bucket guidA guidB p v ttl st hne
    have hkne : ((bucket.name, pyStr (PyVal.vStr (generate_identifier guidA p)))
        : String × String)
        ≠ (bucket.name, pyStr (PyVal.vStr (generate_identifier guidB p))) := by
      intro hk
      exact hne (generate_identifier_inj_left (congrArg Prod.snd hk))
    simp [cacheF_get, cacheF_add, storeFind, hkne]

/-- Witness for C4: a concrete derived identifier has the guid prefix, and a
write under profile guid `A` is invisible to a read under `B`. -/
theorem claim_C4_witness :
    (∃ p, ("G_show1" : String) = generate_identifier "G" p)
  ∧ cacheF_get (α := Nat) ⟨"b", false, 0⟩ (.vStr (generate_identifier "B" "x"))
      (cacheF_add ⟨"b", false, 0⟩ (.vStr (generate_identifier "A" "x")) 5 none [])
      = .error .cacheMiss := by
  constructor
  · exact (claim_C4_profile_scoping (α := Nat)).1 none "videoid" none 0
      [.vStr "show1"] [] "G" (some (PyVal.vStr "show1")) "G_show1" rfl
  · exact ((claim_C4_profile_scoping (α := Nat)).2 ⟨"b", false, 0⟩ "A" "B" "x" 5 none []
      (by decide)).trans rfl

/-- C10: the positional fallback indexes `args[identify_fallback_arg_index]`
guarded only by non-emptiness of `args`; under the precondition that the
index is within bounds the derivation never fails, while an out-of-bounds
index with non-empty `args` and no kwarg raises `IndexError`. -/
theorem claim_C10_fallback_guard :
    (∀ (fixed : Option String) (fromName : String) (idx : Nat) (args : List PyVal)
       (kwargs : List (String × PyVal)) (guid : String), idx < args.length →
       (get_identifier fixed fromName none idx args kwargs guid).isOk = true)
  ∧ (∀ (fixed : Option String) (fromName : String) (idx : Nat) (args : List PyVal)
       (kwargs : List (String × PyVal)) (guid : String),
       pyTruthyOptStr fixed = false → pyTruthy (kwLookup kwargs fromName) = false →
       args ≠ [] → args.length ≤ idx →
       get_identifier fixed fromName none idx args kwargs guid
         = .error .indexError) := by
  constructor
  · intro fixed fromName idx args kwargs guid hidx
    by_cases hfix : pyTruthyOptStr fixed = true
    · rw [get_identifier_fixed_t fixed hfix]
      rfl
    · have hfix' : pyTruthyOptStr fixed = false := by simpa using hfix
      by_cases hkw : pyTruthy (kwLookup kwargs fromName) = true
      · rw [get_identifier_kwarg fixed hfix' fromName none rfl idx args kwargs guid hkw]
        rfl
      · have hkw' : pyTruthy (kwLookup kwargs fromName) = false := by simpa using hkw
        have hargs : args ≠ [] := by
          intro h
          rw [h] at hidx
          simp at hidx
        rw [get_identifier_fallback fixed hfix' fromName none rfl idx args kwargs guid
          hkw' hargs hidx]
        rfl
  · intro fixed fromName idx args kwargs guid hfix hkw hargs hidx
    exact get_identifier_oob fixed hfix fromName none idx args kwargs guid hkw hargs hidx

/-- Witness for C10: in-bounds fallback succeeds; out-of-bounds raises. -/
theorem claim_C10_witness :
    (get_identifier none "videoid" none 1 [.vStr "a", .vStr "b"] [] "G").isOk = true
  ∧ get_identifier none "videoid" none 2 [.vStr "a", .vStr "b"] [] "G"
      = .error .indexError := by
  constructor
  · exact claim_C10_fallback_guard.1 none "videoid" 1 [.vStr "a", .vStr "b"] [] "G"
      (by decide)
  · exact claim_C10_fallback_guard.2 none "videoid" 2 [.vStr "a", .vStr "b"] [] "G"
      rfl (by decide) (by decide) (by decide)

/-- C8: the serialization codec round-trips losslessly on both the Python-2
path (pickle wrapped in standard base64) and the Python-3 path (raw pickle
bytes), given that pickling itself round-trips and produces bytes. -/
theorem claim_C8_codec_roundtrip {α : Type} (py_is_ver2 : Bool)
    (pickle_dumps : α → List Nat) (pickle_loads : List Nat → α)
    (hpickle : ∀ v, pickle_loads (pickle_dumps v) = v)
    (hbytes : ∀ v, ∀ x ∈ pickle_dumps v, x < 256) (v : α) :
    deserialize_data py_is_ver2 pickle_loads (serialize_data py_is_ver2 pickle_dumps v)
      = v := by
  cases py_is_ver2
  · simp [serialize_data, deserialize_data, hpickle]
  · simp [serialize_data, deserialize_data, b64_roundtrip _ (hbytes v), hpickle]

/-- Witness for C8 with a concrete one-byte codec, on both paths. -/
theorem claim_C8_witness :
    deserialize_data true (fun l => l == [1])
        (serialize_data true (fun b => if b then [1] else [0]) true) = true
  ∧ deserialize_data false (fun l => l == [1])
        (serialize_data false (fun b => if b then [1] else [0]) false) = false := by
  constructor
  · exact claim_C8_codec_roundtrip true (fun b => if b then [1] else [0])
      (fun l => l == [1]) (by decide) (by decide) true
  · exact claim_C8_codec_roundtrip false (fun b => if b then [1] else [0])
      (fun l => l == [1]) (by decide) (by decide) false



/-- C6: every facade operation dispatches directly to the corresponding
cache-management method when running in the service process (with the
serialized payload injected into the `'data'` parameter for `add`), and over
the inter-process HTTP cache channel otherwise (payload separate from the
envelope, whose `'data'` field stays `None`); the channel's result is
returned unchanged. -/
theorem claim_C6_dispatch {α : Type}
    (mgmt : String → List (String × ParamVal) → Except PyErr ParamVal)
    (make_http_call_cache :
      String → List (String × ParamVal) → Option (List Nat) → Except PyErr ParamVal)
    (deserialize : ParamVal → Except PyErr α) (serialize : α → List Nat)
    (bucket : Bucket) (identifier : PyVal) (v : α) (ttl expires : Option Nat)
    (buckets : Option (List Bucket)) (clear_database : Bool) :
    (Cache_get true mgmt make_http_call_cache deserialize bucket identifier
      = match mgmt "get" [("bucket", .pBucket bucket),
            ("identifier", .pStr (pyStr identifier))] with
        | .ok d => deserialize d
        | .error e => .error e)
  ∧ (Cache_get false mgmt make_http_call_cache deserialize bucket identifier
      = match make_http_call_cache "get" [("bucket", .pBucket bucket),
            ("identifier", .pStr (pyStr identifier))] none with
        | .ok d => deserialize d
        | .error e => .error e)
  ∧ (Cache_add true mgmt make_http_call_cache serialize bucket identifier v ttl expires
      = match mgmt "add" [("bucket", .pBucket bucket),
            ("identifier", .pStr (pyStr identifier)),
            ("data", .pBytes (serialize v)), ("ttl", pOptNat ttl),
            ("expires", pOptNat expires)] with
        | .ok _ => .ok ()
        | .error e => .error e)
  ∧ (Cache_add false mgmt make_http_call_cache serialize bucket identifier v ttl expires
      = match make_http_call_cache "add" [("bucket", .pBucket bucket),
            ("identifier", .pStr (pyStr identifier)),
            ("data", ParamVal.pNone), ("ttl", pOptNat ttl),
            ("expires", pOptNat expires)] (some (serialize v)) with
        | .ok _ => .ok ()
        | .error e => .error e)
  ∧ (Cache_delete true mgmt make_http_call_cache bucket identifier
      = match mgmt "delete" [("bucket", .pBucket bucket),
            ("identifier", .pStr (pyStr identifier))] with
        | .ok _ => .ok ()
        | .error e => .error e)
  ∧ (Cache_delete false mgmt make_http_call_cache bucket identifier
      = match make_http_call_cache "delete" [("bucket", .pBucket bucket),
            ("identifier", .pStr (pyStr identifier))] none with
        | .ok _ => .ok ()
        | .error e => .error e)
  ∧ (Cache_clear true mgmt make_http_call_cache buckets clear_database
      = match mgmt "clear" [("buckets", pOptBuckets buckets),
            ("clear_database", .pBool clear_database)] with
        | .ok _ => .ok ()
        | .error e => .error e)
  ∧ (Cache_clear false mgmt make_http_call_cache buckets clear_database
      = match make_http_call_cache "clear" [("buckets", pOptBuckets buckets),
            ("clear_database", .pBool clear_database)] none with
        | .ok _ => .ok ()
        | .error e => .error e) := by
  exact ⟨rfl, rfl, rfl, rfl, rfl, rfl, rfl, rfl⟩



/-- C7: `Cache.get` propagates `CacheMiss` and every other error from the
underlying call unchanged, and a deserialization failure propagates as well;
the wrapper's lookup catches only `CacheMiss`, so any other error from the
cached read propagates to the caller without invoking the wrapped function
and without touching the cache state. -/
theorem claim_C7_error_propagation :
    (∀ (α : Type) (mgmt : String → List (String × ParamVal) → Except PyErr ParamVal)
       (make_http_call_cache :
         String → List (String × ParamVal) → Option (List Nat) → Except PyErr ParamVal)
       (deserialize : ParamVal → Except PyErr α) (bucket : Bucket) (identifier : PyVal)
       (e : PyErr),
       mgmt "get" [("bucket", .pBucket bucket), ("identifier", .pStr (pyStr identifier))]
           = .error e →
       Cache_get true mgmt make_http_call_cache deserialize bucket identifier = .error e)
  ∧ (∀ (α : Type) (mgmt : String → List (String × ParamVal) → Except PyErr ParamVal)
       (make_http_call_cache :
         String → List (String × ParamVal) → Option (List Nat) → Except PyErr ParamVal)
       (deserialize : ParamVal → Except PyErr α) (bucket : Bucket) (identifier : PyVal)
       (e : PyErr),
       make_http_call_cache "get" [("bucket", .pBucket bucket),
           ("identifier", .pStr (pyStr identifier))] none = .error e →
       Cache_get false mgmt make_http_call_cache deserialize bucket identifier = .error e)
  ∧ (∀ (α : Type) (mgmt : String → List (String × ParamVal) → Except PyErr ParamVal)
       (make_http_call_cache :
         String → List (String × ParamVal) → Option (List Nat) → Except PyErr ParamVal)
       (deserialize : ParamVal → Except PyErr α) (bucket : Bucket) (identifier : PyVal)
       (d : ParamVal) (e : PyErr),
       mgmt "get" [("bucket", .pBucket bucket), ("identifier", .pStr (pyStr identifier))]
           = .ok d →
       deserialize d = .error e →
       Cache_get true mgmt make_http_call_cache deserialize bucket identifier = .error e)
  ∧ (∀ (α σ : Type) (bucket : Bucket) (fixed : Option String) (fromName : String)
       (appendName : Option String) (idx : Nat) (ttl : Option Nat) (cacheTtl : Nat)
       (guid : String) (cacheGet : Bucket → String → σ → Except PyErr α)
       (cacheAdd : Bucket → String → α → Option Nat → σ → σ)
       (func : List PyVal → List (String × PyVal) → α) (args : List PyVal)
       (kwargs : List (String × PyVal)) (st : σ) (av : Option PyVal) (ident : String)
       (e : PyErr),
       get_identifier fixed fromName appendName idx args kwargs guid = .ok (av, ident) →
       ident ≠ "" →
       cacheGet bucket ident st = .error e → e ≠ .cacheMiss →
       cache_output_wrapper bucket fixed fromName appendName idx ttl cacheTtl guid
           cacheGet cacheAdd func args kwargs st = (.error e, st, 0)) := by
  refine ⟨?_, ?_, ?_, ?_⟩
  · intro α mgmt http deserialize bucket identifier e he
    have hk : hasKey [("bucket", ParamVal.pBucket bucket),
        ("identifier", ParamVal.pStr (pyStr identifier))] "data" = false := rfl
    simp [Cache_get, make_call, hk, he]
  · intro α mgmt http deserialize bucket identifier e he
    simp [Cache_get, make_call, he]
  · intro α mgmt http deserialize bucket identifier d e hd he
    have hk : hasKey [("bucket", ParamVal.pBucket bucket),
        ("identifier", ParamVal.pStr (pyStr identifier))] "data" = false := rfl
    simp [Cache_get, make_call, hk, hd, he]
  · intro α σ bucket fixed fromName appendName idx ttl cacheTtl guid cacheGet cacheAdd
      func args kwargs st av ident e hid hne hget hmiss
    rw [wrapper_eval bucket fixed fromName appendName idx ttl cacheTtl guid cacheGet
      cacheAdd func args kwargs st av ident hid hne, hget]
    cases e
    · exact absurd rfl hmiss
    all_goals rfl

/-- Witness for C7: a serialization error from the underlying get propagates
through the facade and through the wrapper without invoking the function. -/
theorem claim_C7_witness :
    Cache_get true (fun _ _ => .error .serializationError)
        (fun _ _ _ => .error .cacheMiss) (fun _ => .ok (0 : Nat))
        ⟨"cache_common", false, 14400⟩ (.vStr "x") = .error .serializationError
  ∧ cache_output_wrapper (α := Nat) (σ := List (String × Option Nat))
        ⟨"cache_common", false, 14400⟩ none "videoid" none 0 none 14400 "G"
        (fun _ _ _ => .error .serializationError) (fun _ i _ t s => (i, t) :: s)
        (fun _ _ => 42) [.vStr "show1"] [] []
      = (.error .serializationError, [], 0) := by
  constructor
  · exact claim_C7_error_propagation.1 Nat (fun _ _ => .error .serializationError)
      (fun _ _ _ => .error .cacheMiss) (fun _ => .ok 0)
      ⟨"cache_common", false, 14400⟩ (.vStr "x") .serializationError rfl
  · exact claim_C7_error_propagation.2.2.2 Nat (List (String × Option Nat))
      ⟨"cache_common", false, 14400⟩ none "videoid" none 0 none 14400 "G"
      (fun _ _ _ => .error .serializationError) (fun _ i _ t s => (i, t) :: s)
      (fun _ _ => 42) [.vStr "show1"] [] [] (some (PyVal.vStr "show1")) "G_show1"
      .serializationError rfl (by decide) rfl (by decide)



/-- One `memo_call` on a fresh identifier: cache miss, invoke, store with the
ttl-or-override, return. -/
lemma memo_call_miss {α : Type} (bucket : Bucket) (cacheTtl : Nat) (guid s : String)
    (func : List PyVal → List (String × PyVal) → α) (st : Store α)
    (hmiss : storeFind (bucket.name, generate_identifier guid s) st = none) :
    memo_call bucket none cacheTtl guid func [.vStr s] [] st
      = (.ok (func [.vStr s] []),
         ((bucket.name, generate_identifier guid s),
          (func [.vStr s] [],
           if s = "mylist" then some (min cacheTtl CACHE_MYLIST_TTL_MAX) else none))
          :: st, 1) := by
  have hid : get_identifier none "videoid" none 0 [.vStr s] [] guid
      = .ok (some (.vStr s), generate_identifier guid s) :=
    get_identifier_fallback none rfl "videoid" none rfl 0 [.vStr s] [] guid rfl
      (by simp) (by simp)
  rw [memo_call, wrapper_eval bucket none "videoid" none 0 none cacheTtl guid
    (fun b i st2 => cacheF_get b (.vStr i) st2)
    (fun b i v t st2 => cacheF_add b (.vStr i) v t st2)
    func [.vStr s] [] st (some (.vStr s)) (generate_identifier guid s) hid
    (generate_identifier_ne_empty guid s)]
  simp [cacheF_get, cacheF_add, pyStr, hmiss, pyTtlOr]

/-- One `memo_call` on a cached identifier: hit, no invocation, state kept. -/
lemma memo_call_hit {α : Type} (bucket : Bucket) (cacheTtl : Nat) (guid s : String)
    (func : List PyVal → List (String × PyVal) → α) (st : Store α) (v : α)
    (ttlv : Option Nat)
    (hhit : storeFind (bucket.name, generate_identifier guid s) st = some (v, ttlv)) :
    memo_call bucket none cacheTtl guid func [.vStr s] [] st = (.ok v, st, 0) := by
  have hid : get_identifier none "videoid" none 0 [.vStr s] [] guid
      = .ok (some (.vStr s), generate_identifier guid s) :=
    get_identifier_fallback none rfl "videoid" none rfl 0 [.vStr s] [] guid rfl
      (by simp) (by simp)
  rw [memo_call, wrapper_eval bucket none "videoid" none 0 none cacheTtl guid
    (fun b i st2 => cacheF_get b (.vStr i) st2)
    (fun b i v2 t st2 => cacheF_add b (.vStr i) v2 t st2)
    func [.vStr s] [] st (some (.vStr s)) (generate_identifier guid s) hid
    (generate_identifier_ne_empty guid s)]
  simp [cacheF_get, pyStr, hhit]

/-- C2: the wrapper's lookup/compute protocol for the default configuration on
`f(videoid)`: a first call with a fresh identifier invokes `f`, stores the
result with `ttl=override` and returns it; a second identical call returns
the equal cached value without invoking `f`; a call with a distinct
`videoid` value computes independently. -/
theorem claim_C2_memoization {α : Type} (bucket : Bucket) (cacheTtl : Nat)
    (guid s : String) (func : List PyVal → List (String × PyVal) → α)
    (st0 : Store α)
    (hmiss : storeFind (bucket.name, generate_identifier guid s) st0 = none) :
    memo_call bucket none cacheTtl guid func [.vStr s] [] st0
      = (.ok (func [.vStr s] []),
         ((bucket.name, generate_identifier guid s),
          (func [.vStr s] [],
           if s = "mylist" then some (min cacheTtl CACHE_MYLIST_TTL_MAX) else none))
          :: st0, 1)
  ∧ memo_call bucket none cacheTtl guid func [.vStr s] []
        (((bucket.name, generate_identifier guid s),
          (func [.vStr s] [],
           if s = "mylist" then some (min cacheTtl CACHE_MYLIST_TTL_MAX) else none))
          :: st0)
      = (.ok (func [.vStr s] []),
         ((bucket.name, generate_identifier guid s),
          (func [.vStr s] [],
           if s = "mylist" then some (min cacheTtl CACHE_MYLIST_TTL_MAX) else none))
          :: st0, 0)
  ∧ (∀ t, t ≠ s → storeFind (bucket.name, generate_identifier guid t) st0 = none →
       memo_call bucket none cacheTtl guid func [.vStr t] []
           (((bucket.name, generate_identifier guid s),
             (func [.vStr s] [],
              if s = "mylist" then some (min cacheTtl CACHE_MYLIST_TTL_MAX) else none))
             :: st0)
         = (.ok (func [.vStr t] []),
            ((bucket.name, generate_identifier guid t),
             (func [.vStr t] [],
              if t = "mylist" then some (min cacheTtl CACHE_MYLIST_TTL_MAX) else none))
             :: ((bucket.name, generate_identifier guid s),
                 (func [.vStr s] [],
                  if s = "mylist" then some (min cacheTtl CACHE_MYLIST_TTL_MAX) else none))
             :: st0, 1)) := by
  refine ⟨memo_call_miss bucket cacheTtl guid s func st0 hmiss, ?_, ?_⟩
  · exact memo_call_hit bucket cacheTtl guid s func _ (func [.vStr s] [])
      (if s = "mylist" then some (min cacheTtl CACHE_MYLIST_TTL_MAX) else none)
      (by simp [storeFind])
  · intro t hts hmiss2
    refine memo_call_miss bucket cacheTtl guid t func _ ?_
    have hkey : ((bucket.name, generate_identifier guid s) : String × String)
        ≠ (bucket.name, generate_identifier guid t) := by
      intro hk
      exact hts (generate_identifier_inj_right (congrArg Prod.snd hk)).symm
    simp [storeFind, hkey, hmiss2]

/-- Witness for C2 at a concrete wrapped function and store. -/
theorem claim_C2_witness :
    memo_call (α := Nat) ⟨"cache_common", false, 14400⟩ none 14400 "G"
        (fun _ _ => 42) [.vStr "show1"] [] []
      = (.ok 42, [(("cache_common", "G_show1"), (42, none))], 1)
  ∧ memo_call (α := Nat) ⟨"cache_common", false, 14400⟩ none 14400 "G"
        (fun _ _ => 42) [.vStr "show1"] []
        [(("cache_common", "G_show1"), (42, none))]
      = (.ok 42, [(("cache_common", "G_show1"), (42, none))], 0)
  ∧ memo_call (α := Nat) ⟨"cache_common", false, 14400⟩ none 14400 "G"
        (fun _ _ => 42) [.vStr "show2"] []
        [(("cache_common", "G_show1"), (42, none))]
      = (.ok 42, [(("cache_common", "G_show2"), (42, none)),
                  (("cache_common", "G_show1"), (42, none))], 1) := by
  have h := claim_C2_memoization (α := Nat) ⟨"cache_common", false, 14400⟩ 14400 "G"
    "show1" (fun _ _ => 42) [] rfl
  exact ⟨h.1.trans rfl, (h.2.1).trans rfl,
    (h.2.2 "show2" (by decide) rfl).trans rfl⟩



/-- C1 (code bug, behavior at the failing input): called with no positional
arguments and no keyword arguments, the wrapper does NOT skip caching:
`str(None)` turns the underived identifier into the truthy string
`"<guid>_None"`, the result is stored under it after the miss (first
conjunct, with a recording `add`), and a later call is answered from the
cache without executing the wrapped function (second conjunct). -/
theorem claim_C1_bug :
    cache_output_wrapper (α := Nat) (σ := List (String × Option Nat))
        ⟨"cache_common", false, 14400⟩ none "videoid" none 0 none 14400 "G"
        (fun _ _ _ => .error .cacheMiss) (fun _ i _ t st => (i, t) :: st)
        (fun _ _ => 42) [] [] []
      = (.ok 42, [("G_None", none)], 1)
  ∧ cache_output_wrapper (α := Nat) (σ := List (String × Option Nat))
        ⟨"cache_common", false, 14400⟩ none "videoid" none 0 none 14400 "G"
        (fun _ i _ => if i = "G_None" then .ok 99 else .error .cacheMiss)
        (fun _ i _ t st => (i, t) :: st) (fun _ _ => 42) [] [] []
      = (.ok 99, [], 0) :=
  ⟨rfl, rfl⟩

/-- C5 counterexample: the identifier argument value `'mylist'` supplied via
the `identify_from` kwarg (not the positional fallback) does NOT trigger the
TTL override — the recorded `add` used `ttl=None`, not
`min(g.CACHE_TTL, CACHE_MYLIST_TTL_MAX)` (here with `g.CACHE_TTL = 14400`). -/
theorem claim_C5_counterexample :
    cache_output_wrapper (α := Nat) (σ := List (String × Option Nat))
        ⟨"cache_common", false, 14400⟩ none "videoid" none 0 none 14400 "G"
        (fun _ _ _ => .error .cacheMiss) (fun _ i _ t st => (i, t) :: st)
        (fun _ _ => 42) [] [("videoid", PyVal.vStr "mylist")] []
      = (.ok 42, [("G_mylist", none)], 1)
  ∧ (none : Option Nat) ≠ some (min 14400 CACHE_MYLIST_TTL_MAX) :=
  ⟨rfl, by decide⟩

/-- C5 as amended: when no explicit ttl is configured and the raw identifier
value `'mylist'` is supplied via the positional fallback (the `identify_from`
kwarg being absent or falsy), the `add` performed on a cache miss uses
`ttl = min(g.CACHE_TTL, CACHE_MYLIST_TTL_MAX)`. -/
theorem claim_C5_mylist_ttl {α σ : Type} (bucket : Bucket) (fromName : String)
    (idx : Nat) (cacheTtl : Nat) (guid : String)
    (cacheGet : Bucket → String → σ → Except PyErr α)
    (cacheAdd : Bucket → String → α → Option Nat → σ → σ)
    (func : List PyVal → List (String × PyVal) → α) (args : List PyVal)
    (kwargs : List (String × PyVal)) (st : σ)
    (hkw : pyTruthy (kwLookup kwargs fromName) = false) (hargs : args ≠ [])
    (hidx : idx < args.length) (hval : args[idx] = PyVal.vStr "mylist")
    (hget : cacheGet bucket (generate_identifier guid "mylist") st
              = .error .cacheMiss) :
    cache_output_wrapper bucket none fromName none idx none cacheTtl guid
        cacheGet cacheAdd func args kwargs st
      = (.ok (func args kwargs),
         cacheAdd bucket (generate_identifier guid "mylist") (func args kwargs)
           (some (min cacheTtl CACHE_MYLIST_TTL_MAX)) st, 1) := by
  have hid := get_identifier_fallback none rfl fromName none rfl idx args kwargs guid
    hkw hargs hidx
  rw [hval] at hid
  rw [wrapper_eval bucket none fromName none idx none cacheTtl guid cacheGet cacheAdd
    func args kwargs st (some (PyVal.vStr "mylist")) (generate_identifier guid "mylist")
    hid (generate_identifier_ne_empty guid "mylist"), hget]
  simp [pyTtlOr]

/-- Witness for the amended C5: positional `'mylist'` with no configured ttl
records an `add` with ttl `min(14400, 7200) = 7200`. -/
theorem claim_C5_witness :
    cache_output_wrapper (α := Nat) (σ := List (String × Option Nat))
        ⟨"cache_common", false, 14400⟩ none "videoid" none 0 none 14400 "G"
        (fun _ _ _ => .error .cacheMiss) (fun _ i _ t st => (i, t) :: st)
        (fun _ _ => 42) [.vStr "mylist"] [] []
      = (.ok 42, [("G_mylist", some 7200)], 1) :=
  (claim_C5_mylist_ttl (α := Nat) (σ := List (String × Option Nat))
    ⟨"cache_common", false, 14400⟩ "videoid" 0 14400 "G"
    (fun _ _ _ => .error .cacheMiss) (fun _ i _ t st => (i, t) :: st)
    (fun _ _ => 42) [.vStr "mylist"] [] [] rfl (by simp) (by simp) rfl rfl).trans rfl



/-- A deleted key is no longer found, whatever the prior store contents. -/
lemma storeFind_filter_ne {α : Type} (k : String × String) (st : Store α) :
    storeFind k (st.filter (fun e => !decide (e.1 = k))) = none := by
  induction st with
  | nil => rfl
  | cons e rest ih =>
    by_cases he : e.1 = k
    · simp [List.filter_cons, he, ih]
    · simp [List.filter_cons, he, storeFind, ih]

/-- C9: the facade coerces every identifier with `str()` before dispatch, so
non-string identifiers are accepted and two identifier values with equal
string forms are interchangeable in `get`/`add`/`delete`; against the store,
an `add` under `x` is visible to a `get` under `y` with `str(x) == str(y)`,
and a `delete` under `y` removes the entry written under `x`. -/
theorem claim_C9_str_coercion {α : Type} :
    (∀ (isService : Bool)
       (mgmt : String → List (String × ParamVal) → Except PyErr ParamVal)
       (make_http_call_cache :
         String → List (String × ParamVal) → Option (List Nat) → Except PyErr ParamVal)
       (deserialize : ParamVal → Except PyErr α) (bucket : Bucket) (x y : PyVal),
       pyStr x = pyStr y →
       Cache_get isService mgmt make_http_call_cache deserialize bucket x
         = Cache_get isService mgmt make_http_call_cache deserialize bucket y)
  ∧ (∀ (isService : Bool)
       (mgmt : String → List (String × ParamVal) → Except PyErr ParamVal)
       (make_http_call_cache :
         String → List (String × ParamVal) → Option (List Nat) → Except PyErr ParamVal)
       (serialize : α → List Nat) (bucket : Bucket) (x y : PyVal) (v : α)
       (ttl expires : Option Nat),
       pyStr x = pyStr y →
       Cache_add isService mgmt make_http_call_cache serialize bucket x v ttl expires
         = Cache_add isService mgmt make_http_call_cache serialize bucket y v ttl expires)
  ∧ (∀ (isService : Bool)
       (mgmt : String → List (String × ParamVal) → Except PyErr ParamVal)
       (make_http_call_cache :
         String → List (String × ParamVal) → Option (List Nat) → Except PyErr ParamVal)
       (bucket : Bucket) (x y : PyVal),
       pyStr x = pyStr y →
       Cache_delete isService mgmt make_http_call_cache bucket x
         = Cache_delete isService mgmt make_http_call_cache bucket y)
  ∧ (∀ (bucket : Bucket) (x y : PyVal) (v : α) (ttl : Option Nat) (st : Store α),
       pyStr x = pyStr y →
       cacheF_get bucket y (cacheF_add bucket x v ttl st) = .ok v)
  ∧ (∀ (bucket : Bucket) (x y : PyVal) (st : Store α),
       pyStr x = pyStr y →
       cacheF_get bucket x (cacheF_delete bucket y st) = .error .cacheMiss) := by
  refine ⟨?_, ?_, ?_, ?_, ?_⟩
  · intro isService mgmt http deserialize bucket x y h
    simp [Cache_get, h]
  · intro isService mgmt http serialize bucket x y v ttl expires h
    simp [Cache_add, h]
  · intro isService mgmt http bucket x y h
    simp [Cache_delete, h]
  · intro bucket x y v ttl st h
    simp [cacheF_get, cacheF_add, storeFind, h]
  · intro bucket x y st h
    simp [cacheF_get, cacheF_delete, h, storeFind_filter_ne]

/-- Witness for C9 with the non-string identifier `5` and the string `"5"`. -/
theorem claim_C9_witness :
    Cache_get (α := Nat) true (fun _ _ => .error .cacheMiss)
        (fun _ _ _ => .error .cacheMiss) (fun _ => .ok 0)
        ⟨"cache_common", false, 14400⟩ (.vInt 5)
      = Cache_get true (fun _ _ => .error .cacheMiss)
        (fun _ _ _ => .error .cacheMiss) (fun _ => .ok 0)
        ⟨"cache_common", false, 14400⟩ (.vStr "5")
  ∧ cacheF_get (α := Nat) ⟨"b", false, 0⟩ (.vStr "5")
      (cacheF_add ⟨"b", false, 0⟩ (.vInt 5) 42 none []) = .ok 42
  ∧ cacheF_get (α := Nat) ⟨"b", false, 0⟩ (.vInt 5)
      (cacheF_delete ⟨"b", false, 0⟩ (.vStr "5")
        (cacheF_add ⟨"b", false, 0⟩ (.vInt 5) 42 none [])) = .error .cacheMiss := by
  refine ⟨?_, ?_, ?_⟩
  · exact (claim_C9_str_coercion (α := Nat)).1 true (fun _ _ => .error .cacheMiss)
      (fun _ _ _ => .error .cacheMiss) (fun _ => .ok 0)
      ⟨"cache_common", false, 14400⟩ (.vInt 5) (.vStr "5") rfl
  · exact (claim_C9_str_coercion (α := Nat)).2.2.2.1 ⟨"b", false, 0⟩ (.vInt 5)
      (.vStr "5") 42 none [] rfl
  · exact (claim_C9_str_coercion (α := Nat)).2.2.2.2 ⟨"b", false, 0⟩ (.vInt 5)
      (.vStr "5") (cacheF_add ⟨"b", false, 0⟩ (.vInt 5) 42 none []) rfl


end NFCache
